import Mathlib

/-!
Shallow embedding of `src/garmin_mcp_server.py` (Joao-Alves/garmin_mcp).

The bootstrap (`init_api`), the process entry point (`main`) and the
`list_activities` tool are translated as pure Lean functions over an
explicit environment of oracles (results of the external network /
filesystem operations) that return an outcome together with a trace of
the side effects performed, in order.
-/

namespace GarminMcp

/-- The Python exception classes that can cross the boundaries the source
handles: the two `except` tuples at lines 83 and 97, plus the undistinguished
rest (`PermissionError`, `json.JSONDecodeError`, anything else). -/
inductive PyExc where
  | fileNotFound
  | garthHTTPError
  | garminConnectAuthError
  | requestsHTTPError
  | permissionError
  | jsonDecodeError
  | otherExc
deriving DecidableEq, Repr

/-- `str(err)` for the modelled exception classes. -/
def excStr : PyExc → String
  | .fileNotFound => "FileNotFoundError"
  | .garthHTTPError => "GarthHTTPError"
  | .garminConnectAuthError => "GarminConnectAuthenticationError"
  | .requestsHTTPError => "HTTPError"
  | .permissionError => "PermissionError"
  | .jsonDecodeError => "JSONDecodeError"
  | .otherExc => "Exception"

/-- `except (GarthHTTPError, GarminConnectAuthenticationError,
requests.exceptions.HTTPError)` — the outer handler, line 97. -/
def outerCaught : PyExc → Bool
  | .garthHTTPError => true
  | .garminConnectAuthError => true
  | .requestsHTTPError => true
  | _ => false

/-- `except (FileNotFoundError, GarthHTTPError)` — the inner handler guarding
the token-store restoration attempt, line 83. -/
def innerCaught : PyExc → Bool
  | .fileNotFound => true
  | .garthHTTPError => true
  | _ => false

/-- Python truthiness of `os.environ.get` results: `None` and `""` are falsy,
every other string is truthy. -/
def truthy : Option String → Bool
  | none => false
  | some s => !s.isEmpty

/-- `mcp_mode = bool(os.getenv("MCP_MODE"))`, line 41. -/
def mcp_mode_of (v : Option String) : Bool :=
  truthy v

/-- One observable side effect of the program, in the order performed. -/
inductive Event where
  /-- `send_mcp_error` actually wrote its JSON-RPC error object to stdout. -/
  | sendMcpErrorEvt (msg : String)
  /-- a free-form `print(...)` to stdout. -/
  | printOut (msg : String)
  /-- `Garmin(email=..., password=...)` followed by `garmin.login()`:
  a fresh password-based network login with the given credentials. -/
  | networkPasswordLogin (who : String) (secret : String)
  /-- `garmin.login(tokenstore)`: a restoration read of the token store. -/
  | readTokenStore
  /-- `os.makedirs(token_dir, exist_ok=True)`. -/
  | makeTokenDir
  /-- `garmin.garth.dump(tokenstore)`: write the session to the store path. -/
  | dumpTokenStore (blob : String)
  /-- `open(dir_path, "w")` + `write`: overwrite the portable-token path. -/
  | writePortableToken (blob : String)
deriving DecidableEq, Repr

/-- Events that touch the network or the filesystem (as opposed to stdout). -/
def isNetworkOrFs : Event → Bool
  | .networkPasswordLogin _ _ => true
  | .readTokenStore => true
  | .makeTokenDir => true
  | .dumpTokenStore _ => true
  | .writePortableToken _ => true
  | _ => false

/-- The configuration and the external-world oracles `init_api` consults:
the environment credentials, the mode flag, the results of the two kinds of
login the code can attempt, and the serialized session
(`garmin.garth.dump` / `dumps`) that a successful password login yields. -/
structure Env where
  email : Option String
  password : Option String
  mcpMode : Bool
  /-- outcome of `garmin.login(tokenstore)` — `.error e` when the attempt
  raises `e` (absent store: `fileNotFound`; rejected session:
  `garthHTTPError`; permission or malformed content: other classes). -/
  restoreResult : Except PyExc Unit
  /-- outcome of the password-based `garmin.login()`. -/
  passwordLoginResult : Except PyExc Unit
  /-- the session token blob a successful password login produces. -/
  tokenBlob : String

/-- What `init_api` hands back to `main`. -/
inductive InitResult where
  /-- returned an authenticated `Garmin` client. -/
  | client
  /-- returned `None`. -/
  | noneResult
  /-- an exception escaped `init_api` uncaught. -/
  | raised (e : PyExc)
deriving DecidableEq, Repr

def missingCredMsg : String :=
  "GARMIN_EMAIL and GARMIN_PASSWORD environment variables must be set"

def authErrMsg (e : PyExc) : String :=
  "Authentication error: " ++ excStr e

def confirmMsg : String :=
  "Oauth tokens stored for future use.\n"

def initFailMsg : String :=
  "Failed to initialize Garmin Connect client"

def successMsg : String :=
  "Garmin Connect client initialized successfully."

/-- `send_mcp_error(error_msg)`, lines 43–55: writes the JSON-RPC error
object to stdout only when `mcp_mode` is set, otherwise does nothing. -/
def send_mcp_error (mcpMode : Bool) (msg : String) : List Event :=
  if mcpMode then [Event.sendMcpErrorEvt msg] else []

/-- The outer `except` handler body, lines 97–103: structured notification
in MCP mode, plain `print` otherwise; then `return None`. -/
def authErrorEvents (mcpMode : Bool) (e : PyExc) : List Event :=
  if mcpMode then send_mcp_error mcpMode (authErrMsg e)
  else [Event.printOut (authErrMsg e)]

/-- `init_api(email, password)`, lines 57–103, as outcome plus effect trace. -/
def init_api (env : Env) : InitResult × List Event :=
  if !truthy env.email || !truthy env.password then
    if env.mcpMode then
      (.noneResult, send_mcp_error env.mcpMode missingCredMsg)
    else
      (.noneResult, [Event.printOut missingCredMsg])
  else if env.mcpMode then
    match env.passwordLoginResult with
    | .ok _ =>
        (.client,
          [Event.networkPasswordLogin (env.email.getD "") (env.password.getD ""),
           Event.makeTokenDir, Event.dumpTokenStore env.tokenBlob])
    | .error e =>
        if outerCaught e then
          (.noneResult,
            Event.networkPasswordLogin (env.email.getD "") (env.password.getD "")
              :: authErrorEvents env.mcpMode e)
        else
          (.raised e,
            [Event.networkPasswordLogin (env.email.getD "") (env.password.getD "")])
  else
    match env.restoreResult with
    | .ok _ => (.client, [Event.readTokenStore])
    | .error e =>
        if innerCaught e then
          match env.passwordLoginResult with
          | .ok _ =>
              (.client,
                [Event.readTokenStore,
                 Event.networkPasswordLogin (env.email.getD "") (env.password.getD ""),
                 Event.makeTokenDir, Event.dumpTokenStore env.tokenBlob,
                 Event.writePortableToken env.tokenBlob,
                 Event.printOut confirmMsg])
          | .error e2 =>
              if outerCaught e2 then
                (.noneResult,
                  Event.readTokenStore
                    :: Event.networkPasswordLogin (env.email.getD "") (env.password.getD "")
                    :: authErrorEvents env.mcpMode e2)
              else
                (.raised e2,
                  [Event.readTokenStore,
                   Event.networkPasswordLogin (env.email.getD "") (env.password.getD "")])
        else
          if outerCaught e then
            (.noneResult, Event.readTokenStore :: authErrorEvents env.mcpMode e)
          else
            (.raised e, [Event.readTokenStore])

/-- The parts of the filesystem the bootstrap can write: the token-store
directory/contents and the portable-token file's contents. -/
structure FS where
  storeDirExists : Bool
  storeContent : Option String
  portableContent : Option String
deriving DecidableEq, Repr

/-- How each traced effect transforms the filesystem.  `writePortableToken`
comes from `open(dir_path, "w")`, which truncates: the new content replaces
whatever was there, it is never appended. -/
def applyEvent (fs : FS) : Event → FS
  | .makeTokenDir => { fs with storeDirExists := true }
  | .dumpTokenStore b => { fs with storeDirExists := true, storeContent := some b }
  | .writePortableToken b => { fs with portableContent := some b }
  | _ => fs

/-- Run a whole effect trace against a starting filesystem. -/
def runFS (fs : FS) (t : List Event) : FS :=
  t.foldl applyEvent fs

/-- What `main` ends as. -/
inductive MainResult where
  /-- `sys.exit(code)`. -/
  | exited (code : Nat)
  /-- plain `return` from `main` (process continues to exit normally). -/
  | returned
  /-- an exception escaped `main` uncaught. -/
  | raised (e : PyExc)
  /-- reached `app.run()`: the server loop is serving. -/
  | serverRunning
deriving DecidableEq, Repr

/-- Oracles for the module-plumbing steps of `main`: `some msg` models the
step raising an exception whose `str` is `msg`. -/
structure MainEnv where
  env : Env
  configureResult : Option String
  registerResult : Option String

def configFailMsg (m : String) : String :=
  "Failed to configure modules: " ++ m

def registerFailMsg (m : String) : String :=
  "Failed to register tools: " ++ m

/-- `main()`, lines 106–193, as outcome plus effect trace (tool registration
itself performs no modelled effect; `app.run()` is the terminal state). -/
def main (m : MainEnv) : MainResult × List Event :=
  match init_api m.env with
  | (.raised e, t) => (.raised e, t)
  | (.noneResult, t) =>
      if m.env.mcpMode then
        (.exited 1, t ++ send_mcp_error m.env.mcpMode initFailMsg)
      else
        (.returned, t)
  | (_, t) =>
      let t1 := if m.env.mcpMode then t else t ++ [Event.printOut successMsg]
      match m.configureResult with
      | some msg =>
          if m.env.mcpMode then
            (.exited 1, t1 ++ send_mcp_error m.env.mcpMode (configFailMsg msg))
          else
            (.returned, t1 ++ [Event.printOut (configFailMsg msg)])
      | none =>
          match m.registerResult with
          | some msg =>
              if m.env.mcpMode then
                (.exited 1, t1 ++ send_mcp_error m.env.mcpMode (registerFailMsg msg))
              else
                (.returned, t1 ++ [Event.printOut (registerFailMsg msg)])
          | none => (.serverRunning, t1)

/-- Number of structured JSON-RPC error notifications in a trace. -/
def mcpErrorCount (t : List Event) : Nat :=
  (t.filter fun e => match e with
    | .sendMcpErrorEvt _ => true
    | _ => false).length

/-- Whether a trace contains any free-form `print` to stdout. -/
def hasPrintOut (t : List Event) : Bool :=
  t.any fun e => match e with
    | .printOut _ => true
    | _ => false

/-- One activity dict as `list_activities` reads it: each `.get(key, default)`
models an optional field. -/
structure Activity where
  activityName : Option String
  typeKey : Option String
  startTimeLocal : Option String
  activityId : Option String
deriving DecidableEq, Repr

/-- `activity.get(key, 'Unknown')`. -/
def getOrUnknown : Option String → String
  | none => "Unknown"
  | some s => s

/-- The block the loop body at lines 177–183 appends for one activity. -/
def formatActivity (idx : Nat) (a : Activity) : String :=
  "--- Activity " ++ toString idx ++ " ---\n" ++
  "Activity: " ++ getOrUnknown a.activityName ++ "\n" ++
  "Type: " ++ getOrUnknown a.typeKey ++ "\n" ++
  "Date: " ++ getOrUnknown a.startTimeLocal ++ "\n" ++
  "ID: " ++ getOrUnknown a.activityId ++ "\n\n"

/-- `list_activities(limit)`, lines 166–190: `get` is the oracle for
`garmin_client.get_activities(0, limit)` (`.error e` models it raising an
exception with message `e`).  Returns the reply string and the trace. -/
def list_activities (get : Int → Except String (List Activity)) (mcpMode : Bool)
    (limit : Int) : String × List Event :=
  match get limit with
  | .ok activities =>
      if activities.isEmpty then ("No activities found.", [])
      else
        ((activities.enum.foldl (fun r p => r ++ formatActivity (p.1 + 1) p.2)
            ("Last " ++ toString activities.length ++ " activities:\n\n")), [])
  | .error e =>
      let msg := "Error retrieving activities: " ++ e
      (msg, send_mcp_error mcpMode msg)

/-- C1: for every configuration in which the identity (email) or the secret
(password) is absent or empty, in either operating mode, `init_api` returns
`None` after emitting only the missing-credentials message (structured in
automated mode, plain print in interactive mode), and its trace contains no
network or filesystem operation. -/
theorem C1_missing_credentials_fail_no_io (env : Env)
    (h : truthy env.email = false ∨ truthy env.password = false) :
    (init_api env).1 = InitResult.noneResult ∧
    (init_api env).2 =
      (if env.mcpMode then [Event.sendMcpErrorEvt missingCredMsg]
       else [Event.printOut missingCredMsg]) ∧
    ∀ e ∈ (init_api env).2, isNetworkOrFs e = false := by
  have hc : (!truthy env.email || !truthy env.password) = true := by
    rcases h with h | h <;> simp [h]
  cases hm : env.mcpMode <;>
    simp [init_api, hc, hm, send_mcp_error, isNetworkOrFs]

/-- C1 witness: the concrete scenario email unset, password `"pw"`,
automated mode. -/
theorem C1_missing_credentials_fail_no_io_witness :
    (init_api ⟨none, some "pw", true, Except.ok (), Except.ok (), "tok"⟩).1
      = InitResult.noneResult :=
  (C1_missing_credentials_fail_no_io
    ⟨none, some "pw", true, Except.ok (), Except.ok (), "tok"⟩ (Or.inl rfl)).1

/-- C2: in automated mode with non-empty credentials, `init_api` performs the
fresh password login with exactly the supplied credentials, never reads the
token store, and its behaviour is independent of whatever the token-store
restoration would have yielded (i.e. of any pre-existing store content). -/
theorem C2_automated_fresh_login_never_reads_store (env : Env)
    (hm : env.mcpMode = true)
    (he : truthy env.email = true) (hp : truthy env.password = true) :
    Event.networkPasswordLogin (env.email.getD "") (env.password.getD "")
        ∈ (init_api env).2 ∧
    Event.readTokenStore ∉ (init_api env).2 ∧
    ∀ r, init_api { env with restoreResult := r } = init_api env := by
  have hc : (!truthy env.email || !truthy env.password) = false := by
    simp [he, hp]
  rcases hplr : env.passwordLoginResult with e | u
  · cases ho : outerCaught e <;>
      refine ⟨?_, ?_, ?_⟩ <;>
        simp [init_api, hc, hm, hplr, ho, authErrorEvents, send_mcp_error]
  · refine ⟨?_, ?_, ?_⟩ <;>
      simp [init_api, hc, hm, hplr]

/-- C2 witness: concrete automated-mode run with credentials
`("me@x", "secret")` and a store whose restoration would have succeeded. -/
theorem C2_automated_fresh_login_never_reads_store_witness :
    Event.networkPasswordLogin "me@x" "secret"
      ∈ (init_api ⟨some "me@x", some "secret", true,
          Except.ok (), Except.ok (), "tok"⟩).2 :=
  (C2_automated_fresh_login_never_reads_store _ rfl (by decide) (by decide)).1

/-- C3: in interactive mode with non-empty credentials, when the token-store
restoration succeeds, `init_api` returns an authenticated client and the run
writes nothing: every starting filesystem is left unchanged by the trace. -/
theorem C3_interactive_restore_success_no_writes (env : Env)
    (hm : env.mcpMode = false)
    (he : truthy env.email = true) (hp : truthy env.password = true)
    (hr : env.restoreResult = Except.ok ()) :
    (init_api env).1 = InitResult.client ∧
    (init_api env).2 = [Event.readTokenStore] ∧
    ∀ fs : FS, runFS fs (init_api env).2 = fs := by
  have hc : (!truthy env.email || !truthy env.password) = false := by
    simp [he, hp]
  refine ⟨?_, ?_, ?_⟩ <;>
    simp [init_api, hc, hm, hr, runFS, applyEvent]

/-- C3 witness: concrete interactive run with a restorable store. -/
theorem C3_interactive_restore_success_no_writes_witness :
    runFS ⟨false, none, some "old-portable"⟩
        (init_api ⟨some "me@x", some "secret", false,
          Except.ok (), Except.ok (), "tok"⟩).2
      = ⟨false, none, some "old-portable"⟩ :=
  (C3_interactive_restore_success_no_writes _ rfl (by decide) (by decide) rfl).2.2 _

/-- C4: in interactive mode with non-empty credentials, when the store is
absent (`FileNotFoundError` on restoration) and the password fallback login
succeeds, `init_api` returns an authenticated client, prints the confirmation
notice, and — starting from any filesystem whatsoever — the final state has
the token-store directory created and populated with the session and the
portable-token path holding exactly the new blob, its prior content fully
replaced. -/
theorem C4_interactive_fallback_writes_both_stores (env : Env)
    (hm : env.mcpMode = false)
    (he : truthy env.email = true) (hp : truthy env.password = true)
    (hr : env.restoreResult = Except.error PyExc.fileNotFound)
    (hl : env.passwordLoginResult = Except.ok ()) :
    (init_api env).1 = InitResult.client ∧
    Event.printOut confirmMsg ∈ (init_api env).2 ∧
    ∀ fs : FS,
      (runFS fs (init_api env).2).storeDirExists = true ∧
      (runFS fs (init_api env).2).storeContent = some env.tokenBlob ∧
      (runFS fs (init_api env).2).portableContent = some env.tokenBlob := by
  have hc : (!truthy env.email || !truthy env.password) = false := by
    simp [he, hp]
  refine ⟨?_, ?_, ?_⟩ <;>
    simp [init_api, hc, hm, hr, hl, innerCaught, runFS, applyEvent]

/-- C4 witness: concrete interactive fallback run; the portable path held
`"stale"` before and holds exactly the fresh blob `"tok"` after. -/
theorem C4_interactive_fallback_writes_both_stores_witness :
    (runFS ⟨false, none, some "stale"⟩
        (init_api ⟨some "me@x", some "secret", false,
          Except.error PyExc.fileNotFound, Except.ok (), "tok"⟩).2).portableContent
      = some "tok" :=
  ((C4_interactive_fallback_writes_both_stores _ rfl (by decide) (by decide)
      rfl rfl).2.2 _).2.2

/-- C5: in interactive mode with non-empty credentials, when the restoration
attempt fails because the store is present but unusable (a `PermissionError`
or malformed content, neither of which the fallback handler at line 83
catches), `init_api` attempts no password fallback and the exception
propagates as its own failure: the outcome is `raised e` — distinct from the
`None`-plus-`Authentication error` surface of network-authentication failure
(no such message is ever emitted) and from the absence path (no fallback). -/
theorem C5_interactive_corrupt_store_no_fallback (env : Env) (e : PyExc)
    (hm : env.mcpMode = false)
    (he : truthy env.email = true) (hp : truthy env.password = true)
    (hr : env.restoreResult = Except.error e)
    (hkind : e = PyExc.permissionError ∨ e = PyExc.jsonDecodeError) :
    (init_api env).1 = InitResult.raised e ∧
    (init_api env).2 = [Event.readTokenStore] ∧
    (∀ em pw, Event.networkPasswordLogin em pw ∉ (init_api env).2) ∧
    (∀ e2, Event.printOut (authErrMsg e2) ∉ (init_api env).2) ∧
    (∀ msg, Event.sendMcpErrorEvt msg ∉ (init_api env).2) := by
  have hc : (!truthy env.email || !truthy env.password) = false := by
    simp [he, hp]
  rcases hkind with hk | hk <;> subst hk <;>
    refine ⟨?_, ?_, ?_, ?_, ?_⟩ <;>
      simp [init_api, hc, hm, hr, innerCaught, outerCaught]

/-- C5 witness: concrete interactive run whose store restoration raises
`PermissionError`. -/
theorem C5_interactive_corrupt_store_no_fallback_witness :
    (init_api ⟨some "me@x", some "secret", false,
        Except.error PyExc.permissionError, Except.ok (), "tok"⟩).1
      = InitResult.raised PyExc.permissionError :=
  (C5_interactive_corrupt_store_no_fallback
    ⟨some "me@x", some "secret", false,
      Except.error PyExc.permissionError, Except.ok (), "tok"⟩
    PyExc.permissionError rfl (by decide) (by decide) rfl (Or.inl rfl)).1

/-- C7: in every execution, in both modes, a token-store write occurs only
after a successful password login: any `dumpTokenStore` event in the trace
implies the password login oracle succeeded, and the trace contains a
password-login event at a strictly earlier position than that write. -/
theorem C7_store_write_only_after_login (env : Env) (b : String)
    (hb : Event.dumpTokenStore b ∈ (init_api env).2) :
    env.passwordLoginResult = Except.ok () ∧
    ∃ i j, i < j ∧
      (∃ em pw, (init_api env).2.get? i
        = some (Event.networkPasswordLogin em pw)) ∧
      (init_api env).2.get? j = some (Event.dumpTokenStore b) := by
  cases hc : (!truthy env.email || !truthy env.password) with
  | true =>
      cases hm : env.mcpMode <;>
        simp [init_api, hc, hm, send_mcp_error] at hb
  | false =>
      cases hm : env.mcpMode with
      | true =>
          rcases hplr : env.passwordLoginResult with e | u
          · cases ho : outerCaught e <;>
              simp [init_api, hc, hm, hplr, ho, authErrorEvents,
                send_mcp_error] at hb
          · obtain ⟨⟩ := u
            have hb2 : b = env.tokenBlob := by
              simp [init_api, hc, hm, hplr] at hb
              exact hb
            subst hb2
            exact ⟨rfl, 0, 2, by omega,
              ⟨env.email.getD "", env.password.getD "",
                by simp [init_api, hc, hm, hplr]⟩,
              by simp [init_api, hc, hm, hplr]⟩
      | false =>
          rcases hr : env.restoreResult with e | u
          · cases hi : innerCaught e with
            | true =>
                rcases hplr : env.passwordLoginResult with e2 | u2
                · cases ho : outerCaught e2 <;>
                    simp [init_api, hc, hm, hr, hi, hplr, ho, authErrorEvents,
                      send_mcp_error] at hb
                · obtain ⟨⟩ := u2
                  have hb2 : b = env.tokenBlob := by
                    simp [init_api, hc, hm, hr, hi, hplr] at hb
                    exact hb
                  subst hb2
                  exact ⟨rfl, 1, 3, by omega,
                    ⟨env.email.getD "", env.password.getD "",
                      by simp [init_api, hc, hm, hr, hi, hplr]⟩,
                    by simp [init_api, hc, hm, hr, hi, hplr]⟩
            | false =>
                cases ho : outerCaught e <;>
                  simp [init_api, hc, hm, hr, hi, ho, authErrorEvents,
                    send_mcp_error] at hb
          · simp [init_api, hc, hm, hr] at hb

/-- C7 witness: the concrete automated-mode run dumps the store, so the
theorem yields that its password login succeeded. -/
theorem C7_store_write_only_after_login_witness :
    (⟨some "me@x", some "secret", true, Except.ok (), Except.ok (), "tok"⟩
        : Env).passwordLoginResult = Except.ok () :=
  (C7_store_write_only_after_login
    ⟨some "me@x", some "secret", true, Except.ok (), Except.ok (), "tok"⟩
    "tok" (by decide)).1

/-- C8: in automated mode the portable-token path is never written: no
`writePortableToken` event can occur in the trace, for any oracles. -/
theorem C8_automated_never_writes_portable (env : Env) (b : String)
    (hm : env.mcpMode = true) :
    Event.writePortableToken b ∉ (init_api env).2 := by
  cases hc : (!truthy env.email || !truthy env.password) with
  | true => simp [init_api, hc, hm, send_mcp_error]
  | false =>
      rcases hplr : env.passwordLoginResult with e | u
      · cases ho : outerCaught e <;>
          simp [init_api, hc, hm, hplr, ho, authErrorEvents, send_mcp_error]
      · simp [init_api, hc, hm, hplr]

/-- C8 witness: the concrete successful automated-mode run. -/
theorem C8_automated_never_writes_portable_witness :
    Event.writePortableToken "tok"
      ∉ (init_api ⟨some "me@x", some "secret", true,
          Except.ok (), Except.ok (), "tok"⟩).2 :=
  C8_automated_never_writes_portable
    ⟨some "me@x", some "secret", true, Except.ok (), Except.ok (), "tok"⟩
    "tok" rfl

/-- C9: the operating-mode flag is the Python truthiness of the `MCP_MODE`
environment variable: it is `false` exactly when the variable is unset or
empty, and any non-empty value — including `"0"` and `"false"` — selects
automated mode. -/
theorem C9_mode_flag_is_string_truthiness :
    (∀ v, mcp_mode_of v = false ↔ v = none ∨ v = some "") ∧
    mcp_mode_of (some "0") = true ∧
    mcp_mode_of (some "false") = true ∧
    mcp_mode_of none = false ∧
    mcp_mode_of (some "") = false := by
  refine ⟨?_, rfl, rfl, rfl, rfl⟩
  rintro (_ | s) <;>
    simp [mcp_mode_of, truthy, String.isEmpty_iff]

/-- In automated mode `init_api` never prints free-form text: every stdout
emission goes through `send_mcp_error`. -/
lemma init_api_mcp_no_printOut (env : Env) (hm : env.mcpMode = true) :
    hasPrintOut (init_api env).2 = false := by
  cases hc : (!truthy env.email || !truthy env.password) with
  | true => simp [init_api, hc, hm, send_mcp_error, hasPrintOut]
  | false =>
      rcases hplr : env.passwordLoginResult with e | u
      · cases ho : outerCaught e <;>
          simp [init_api, hc, hm, hplr, ho, authErrorEvents, send_mcp_error,
            hasPrintOut]
      · simp [init_api, hc, hm, hplr, hasPrintOut]

/-- In automated mode, when `init_api` returns `None` it has emitted exactly
one structured notification of its own. -/
lemma init_api_mcp_none_one_notification (env : Env) (hm : env.mcpMode = true)
    (hres : (init_api env).1 = InitResult.noneResult) :
    mcpErrorCount (init_api env).2 = 1 := by
  cases hc : (!truthy env.email || !truthy env.password) with
  | true => simp [init_api, hc, hm, send_mcp_error, mcpErrorCount]
  | false =>
      rcases hplr : env.passwordLoginResult with e | u
      · cases ho : outerCaught e with
        | true =>
            simp [init_api, hc, hm, hplr, ho, authErrorEvents, send_mcp_error,
              mcpErrorCount]
        | false => simp [init_api, hc, hm, hplr, ho] at hres
      · simp [init_api, hc, hm, hplr] at hres

/-- When `init_api` hands back a client (either mode), it emitted no
structured notification. -/
lemma init_api_client_no_notification (env : Env)
    (hres : (init_api env).1 = InitResult.client) :
    mcpErrorCount (init_api env).2 = 0 := by
  cases hc : (!truthy env.email || !truthy env.password) with
  | true => cases hm : env.mcpMode <;> simp [init_api, hc, hm] at hres
  | false =>
      cases hm : env.mcpMode with
      | true =>
          rcases hplr : env.passwordLoginResult with e | u
          · cases ho : outerCaught e <;>
              simp [init_api, hc, hm, hplr, ho, authErrorEvents,
                send_mcp_error, mcpErrorCount] at hres ⊢
          · simp [init_api, hc, hm, hplr, mcpErrorCount]
      | false =>
          rcases hr : env.restoreResult with e | u
          · cases hi : innerCaught e with
            | true =>
                rcases hplr : env.passwordLoginResult with e2 | u2
                · cases ho : outerCaught e2 <;>
                    simp [init_api, hc, hm, hr, hi, hplr, ho, authErrorEvents,
                      send_mcp_error, mcpErrorCount] at hres ⊢
                · simp [init_api, hc, hm, hr, hi, hplr, mcpErrorCount]
            | false =>
                cases ho : outerCaught e <;>
                  simp [init_api, hc, hm, hr, hi, ho, authErrorEvents,
                    send_mcp_error, mcpErrorCount] at hres ⊢
          · simp [init_api, hc, hm, hr, mcpErrorCount]

/-- `mcpErrorCount` distributes over trace concatenation. -/
lemma mcpErrorCount_append (a b : List Event) :
    mcpErrorCount (a ++ b) = mcpErrorCount a + mcpErrorCount b := by
  simp [mcpErrorCount, List.filter_append]

/-- `hasPrintOut` distributes over trace concatenation. -/
lemma hasPrintOut_append (a b : List Event) :
    hasPrintOut (a ++ b) = (hasPrintOut a || hasPrintOut b) := by
  simp [hasPrintOut, List.any_append]

/-- C6 counterexample: in automated mode with the email unset, `main` exits
with status 1 after emitting TWO structured error notifications — one from
`init_api`'s own missing-credentials handler and a second from `main`'s
`Failed to initialize` handler — not exactly one as claimed. -/
theorem C6_counterexample_two_notifications :
    (main ⟨⟨none, some "pw", true, Except.ok (), Except.ok (), "tok"⟩,
        none, none⟩).1 = MainResult.exited 1 ∧
    mcpErrorCount
      (main ⟨⟨none, some "pw", true, Except.ok (), Except.ok (), "tok"⟩,
        none, none⟩).2 = 2 ∧
    ¬ mcpErrorCount
      (main ⟨⟨none, some "pw", true, Except.ok (), Except.ok (), "tok"⟩,
        none, none⟩).2 = 1 := by
  refine ⟨rfl, rfl, ?_⟩
  decide

/-- C6 amended: in automated mode, whenever `main` exits fatally (status 1),
no free-form text was printed to stdout and the trace holds one or two
structured error notifications — two when the bootstrap itself failed
(`init_api` emits one and `main` a second before exiting), one when module
configuration or tool registration failed. -/
theorem C6_automated_failure_structured_output (m : MainEnv)
    (hm : m.env.mcpMode = true)
    (hf : (main m).1 = MainResult.exited 1) :
    hasPrintOut (main m).2 = false ∧
    (mcpErrorCount (main m).2 = 1 ∨ mcpErrorCount (main m).2 = 2) := by
  rcases hinit : init_api m.env with ⟨res, t⟩
  have hnp : hasPrintOut t = false := by
    have := init_api_mcp_no_printOut m.env hm
    rwa [hinit] at this
  cases res with
  | raised e =>
      exfalso
      simp [main, hinit] at hf
  | noneResult =>
      have h1 : mcpErrorCount t = 1 := by
        have h := init_api_mcp_none_one_notification m.env hm (by rw [hinit])
        rwa [hinit] at h
      have htr : (main m).2 = t ++ [Event.sendMcpErrorEvt initFailMsg] := by
        simp [main, hinit, hm, send_mcp_error]
      constructor
      · rw [htr, hasPrintOut_append, hnp]
        rfl
      · right
        rw [htr, mcpErrorCount_append, h1]
        rfl
  | client =>
      have h0 : mcpErrorCount t = 0 := by
        have h := init_api_client_no_notification m.env (by rw [hinit])
        rwa [hinit] at h
      rcases hcfg : m.configureResult with _ | msg
      · rcases hreg : m.registerResult with _ | msg2
        · exfalso
          simp [main, hinit, hm, hcfg, hreg] at hf
        · have htr : (main m).2
              = t ++ [Event.sendMcpErrorEvt (registerFailMsg msg2)] := by
            simp [main, hinit, hm, hcfg, hreg, send_mcp_error]
          constructor
          · rw [htr, hasPrintOut_append, hnp]
            rfl
          · left
            rw [htr, mcpErrorCount_append, h0]
            rfl
      · have htr : (main m).2
            = t ++ [Event.sendMcpErrorEvt (configFailMsg msg)] := by
          simp [main, hinit, hm, hcfg, send_mcp_error]
        constructor
        · rw [htr, hasPrintOut_append, hnp]
          rfl
        · left
          rw [htr, mcpErrorCount_append, h0]
          rfl

/-- C6 amended witness: the counterexample run, seen through the amended
theorem: no free-form stdout and a notification count in {1, 2}. -/
theorem C6_automated_failure_structured_output_witness :
    hasPrintOut
      (main ⟨⟨none, some "pw", true, Except.ok (), Except.ok (), "tok"⟩,
        none, none⟩).2 = false :=
  (C6_automated_failure_structured_output
    ⟨⟨none, some "pw", true, Except.ok (), Except.ok (), "tok"⟩, none, none⟩
    rfl rfl).1

/-- The `result +=` loop only ever appends: whatever it starts from is a
prefix of what it ends with. -/
lemma foldl_format_extends (l : List (Nat × Activity)) (a : String) :
    ∃ r, l.foldl (fun acc p => acc ++ formatActivity (p.1 + 1) p.2) a
      = a ++ r := by
  induction l generalizing a with
  | nil => exact ⟨"", (String.append_empty a).symm⟩
  | cons x xs ih =>
      obtain ⟨r, hr⟩ := ih (a ++ formatActivity (x.1 + 1) x.2)
      exact ⟨formatActivity (x.1 + 1) x.2 ++ r, by
        simp only [List.foldl_cons, hr, String.append_assoc]⟩

/-- C10: `list_activities` is total at its boundary — it always hands back a
string: exactly `"No activities found."` when the client returns no
activities, a message beginning `"Error retrieving activities:"` when the
client raises, and a reply whose header states the returned count when the
client returns activities. -/
theorem C10_list_activities_total_boundary
    (get : Int → Except String (List Activity)) (mode : Bool) (limit : Int) :
    (get limit = Except.ok [] →
      (list_activities get mode limit).1 = "No activities found.") ∧
    (∀ e, get limit = Except.error e →
      ∃ rest, (list_activities get mode limit).1
        = "Error retrieving activities:" ++ rest) ∧
    (∀ acts, get limit = Except.ok acts → acts ≠ [] →
      ∃ rest, (list_activities get mode limit).1
        = "Last " ++ toString acts.length ++ " activities:" ++ rest) := by
  refine ⟨?_, ?_, ?_⟩
  · intro h
    simp [list_activities, h]
  · intro e h
    have hsp : ("Error retrieving activities: " : String)
        = "Error retrieving activities:" ++ " " := by decide
    refine ⟨" " ++ e, ?_⟩
    simp only [list_activities, h]
    rw [hsp, String.append_assoc]
  · intro acts h hne
    have hie : acts.isEmpty = false := by
      cases acts with
      | nil => exact absurd rfl hne
      | cons y ys => rfl
    have hgoal : (list_activities get mode limit).1
        = acts.enum.foldl (fun r p => r ++ formatActivity (p.1 + 1) p.2)
            ("Last " ++ toString acts.length ++ " activities:\n\n") := by
      simp [list_activities, h, hie]
    obtain ⟨r, hr⟩ := foldl_format_extends acts.enum
      ("Last " ++ toString acts.length ++ " activities:\n\n")
    have hsplit : (" activities:\n\n" : String)
        = " activities:" ++ "\n\n" := by decide
    refine ⟨"\n\n" ++ r, ?_⟩
    rw [hgoal, hr, hsplit, ← String.append_assoc, String.append_assoc]

/-- C10 witness: with a client returning no activities the tool replies
exactly `"No activities found."`. -/
theorem C10_list_activities_total_boundary_witness :
    (list_activities (fun _ => Except.ok []) true 5).1
      = "No activities found." :=
  (C10_list_activities_total_boundary (fun _ => Except.ok []) true 5).1 rfl

end GarminMcp
